import Mathlib

/-!
Verification of the pothole YOLO detection viewer (React single-page app,
two variants: a REST client posting to the endpoint, and a hosted-client
variant). The state fields, handlers and rendering arithmetic below are
shallow embeddings of the functions in src/src/App.js and
src/unnamed/part_000; JS numbers are modelled as rationals, JS event
callbacks as explicit state-transition functions, and the asynchronous
detection request as a begin phase plus a continuation applied to whatever
state is current when the response arrives.
-/

namespace PotholeYolo

/-- A bounding box in natural-image pixel coordinates, the canonical
`box` field of a detection record. -/
structure Box where
  x1 : ℚ
  y1 : ℚ
  x2 : ℚ
  y2 : ℚ
deriving DecidableEq

/-- The canonical detection shape `{name, confidence, box}` the renderer
consumes. -/
structure Detection where
  name : String
  confidence : ℚ
  box : Box
deriving DecidableEq

/-- A width/height pair (`originalImageDimensions` /
`displayedImageDimensions`). -/
structure Dims where
  width : ℚ
  height : ℚ
deriving DecidableEq

/-- The `{scaleX, scaleY}` pair returned by `getScaleFactors`. -/
structure ScaleFactors where
  scaleX : ℚ
  scaleY : ℚ
deriving DecidableEq

/-- Embedding of `getScaleFactors` (App.js lines 117-125): null unless
both dimension records are present, otherwise displayed/original
componentwise. -/
def getScaleFactors (orig disp : Option Dims) : Option ScaleFactors :=
  match orig, disp with
  | some o, some d => some ⟨d.width / o.width, d.height / o.height⟩
  | _, _ => none

/-- A screen-space rectangle: the `left/top/width/height` style computed
for each bounding-box overlay. -/
structure Rect where
  left : ℚ
  top : ℚ
  width : ℚ
  height : ℚ
deriving DecidableEq

/-- Embedding of the per-detection style computation (App.js lines
156-163). -/
def boxToRect (sf : ScaleFactors) (b : Box) : Rect :=
  { left := b.x1 * sf.scaleX
    top := b.y1 * sf.scaleY
    width := (b.x2 - b.x1) * sf.scaleX
    height := (b.y2 - b.y1) * sf.scaleY }

/-- Embedding of the overlay rendering `scaleFactors && detections.map`
(App.js line 152): nothing when scale factors are unavailable, one
rectangle per detection otherwise. -/
def renderOverlays (sf : Option ScaleFactors) (dets : List Detection) : List Rect :=
  match sf with
  | none => []
  | some f => dets.map fun d => boxToRect f d.box

/-- Embedding of the JSON panel guard `detections && detections.length > 0`
(App.js line 206). -/
def showJsonPanel (dets : List Detection) : Bool :=
  decide (0 < dets.length)

/-- Embedding of JS `Number.prototype.toFixed(1)` on rationals: round to
the nearest tenth, ties toward the larger candidate, and print one digit
after the decimal point. -/
def toFixed1 (q : ℚ) : String :=
  let n : ℤ := ⌊q * 10 + 1 / 2⌋
  (if n < 0 then "-" else "") ++ toString (n.natAbs / 10) ++ "." ++ toString (n.natAbs % 10)

/-- Embedding of the overlay label `{name} ({(confidence * 100).toFixed(1)}%)`
(App.js line 168). -/
def labelText (name : String) (confidence : ℚ) : String :=
  name ++ " (" ++ toFixed1 (confidence * 100) ++ "%)"

/-- Modelled from the spec: label text is
"{name} ({confidence*100 rounded to 1 decimal}%)", with rounding to one
decimal place expressed through the standard `round` at tenths
precision. -/
def specLabelText (name : String) (confidence : ℚ) : String :=
  let tenths : ℤ := round (confidence * 100 * 10)
  name ++ " (" ++
    ((if tenths < 0 then "-" else "") ++
      toString (tenths.natAbs / 10) ++ "." ++ toString (tenths.natAbs % 10)) ++ "%)"

/-- The component's state fields (App.js lines 5-12), parametrised by the
type of stored detection records because the two variants store
differently-shaped records. `imageFile` holds the identity of the selected
file, `imagePreview` the object URL string. -/
structure AppState (α : Type) where
  imageFile : Option ℕ
  imagePreview : Option String
  detections : List α
  isLoading : Bool
  error : Option String
  originalImageDimensions : Option Dims
  displayedImageDimensions : Option Dims
deriving DecidableEq

/-- The initial state: every `useState` starts at null/[]/false. -/
def initApp {α : Type} : AppState α :=
  { imageFile := none, imagePreview := none, detections := [], isLoading := false,
    error := none, originalImageDimensions := none, displayedImageDimensions := none }

/-- The component state together with the resource bookkeeping needed to
reason about object-URL lifetimes: `effectCaptured` is the preview value
captured by the currently registered `useEffect` cleanup (dependency
`[imagePreview]`), `created`/`revoked` log every `URL.createObjectURL` /
`URL.revokeObjectURL` call, and `nextUrl` numbers fresh object URLs. -/
structure World where
  app : AppState Detection
  effectCaptured : Option String
  created : List String
  revoked : List String
  nextUrl : ℕ
deriving DecidableEq

/-- The mounted component before any event. -/
def w0 : World :=
  { app := initApp, effectCaptured := none, created := [], revoked := [], nextUrl := 0 }

/-- `URL.createObjectURL` always yields a blob URL; fresh ones are
numbered. -/
def createObjectURL (n : ℕ) : String :=
  "blob:" ++ toString n

/-- The `startsWith('blob:')` test, expressed on character lists. -/
def isBlobUrl (p : String) : Bool :=
  "blob:".toList.isPrefixOf p.toList

/-- Embedding of `handleFileSelect` (App.js lines 39-55): take
`event.target.files[0]`; return unchanged if absent; otherwise clear
detections, error and both dimension records, revoke the previous blob
preview, and install the new file and its fresh object URL. -/
def handleFileSelect (w : World) (files : List ℕ) : World :=
  match files.head? with
  | none => w
  | some file =>
    let s1 := { w.app with
                detections := ([] : List Detection)
                error := none
                originalImageDimensions := none
                displayedImageDimensions := none }
    let revoked1 :=
      match s1.imagePreview with
      | some p => if isBlobUrl p then p :: w.revoked else w.revoked
      | none => w.revoked
    let url := createObjectURL w.nextUrl
    { app := { s1 with imageFile := some file, imagePreview := some url }
      effectCaptured := w.effectCaptured
      created := url :: w.created
      revoked := revoked1
      nextUrl := w.nextUrl + 1 }

/-- The `useEffect` cleanup (App.js lines 30-35): revoke the preview value
the effect closed over, when it is a blob URL. -/
def effectCleanup (w : World) : World :=
  match w.effectCaptured with
  | some p => if isBlobUrl p then { w with revoked := p :: w.revoked } else w
  | none => w

/-- React re-running the `[imagePreview]`-keyed effect after a render: when
the preview changed, the previous cleanup runs and the new effect captures
the current preview. -/
def rerenderEffect (w : World) : World :=
  if w.app.imagePreview = w.effectCaptured then w
  else { effectCleanup w with effectCaptured := w.app.imagePreview }

/-- A complete file-selection event for a present file: the change handler
followed by the effect turnover of the re-render it causes. -/
def selectFileEvent (w : World) (file : ℕ) : World :=
  rerenderEffect (handleFileSelect w [file])

/-- Component teardown: React runs the registered effect cleanup. -/
def unmountEvent (w : World) : World :=
  effectCleanup w

/-- A raw record of the REST `/predict` response: `class_name`,
`confidence` and a 4-element `bbox` array. -/
structure RestRaw where
  class_name : String
  confidence : ℚ
  bbox : ℚ × ℚ × ℚ × ℚ
deriving DecidableEq

/-- Embedding of the `formattedDetections` mapping (App.js lines 84-93):
`bbox` array entries become the canonical `box` fields. -/
def formatDetection (det : RestRaw) : Detection :=
  { name := det.class_name
    confidence := det.confidence
    box := { x1 := det.bbox.1, y1 := det.bbox.2.1, x2 := det.bbox.2.2.1, y2 := det.bbox.2.2.2 } }

/-- The observable outcomes of the `fetch('/predict')` round trip: an ok
response with a well-formed detections array, a non-ok status (the code
throws `API Error: status statusText`), a response whose JSON lacks a
well-formed detections array (the `.map` access throws a TypeError whose
message is `msg`), or a rejected fetch whose error may or may not carry a
message. -/
inductive FetchOutcome where
  | ok : List RestRaw → FetchOutcome
  | httpError : ℕ → String → FetchOutcome
  | malformed : String → FetchOutcome
  | networkError : Option String → FetchOutcome
deriving DecidableEq

/-- `true` on every outcome the `catch` block handles. -/
def FetchOutcome.isFailure : FetchOutcome → Bool
  | .ok _ => false
  | _ => true

/-- The synchronous prefix of `detectObjects` after its guard (App.js
lines 64-66): loading on, detections and error cleared. The request is in
flight from here. -/
def detectBegin {α : Type} (s : AppState α) : AppState α :=
  { s with isLoading := true, detections := ([] : List α), error := none }

/-- The continuation of the REST `detectObjects` after the response
arrives (App.js lines 77-101), applied to whatever state is current at
that moment: store the formatted detections on success, set the single
error message on any failure, and in either case clear loading in the
`finally` step. -/
def applyOutcomeRest (s : AppState Detection) (o : FetchOutcome) : AppState Detection :=
  match o with
  | .ok raws => { s with detections := raws.map formatDetection, isLoading := false }
  | .httpError code text =>
      { s with
        error := some ("Failed to detect objects: API Error: " ++ toString code ++ " " ++ text)
        isLoading := false }
  | .malformed msg =>
      { s with error := some ("Failed to detect objects: " ++ msg), isLoading := false }
  | .networkError msg =>
      { s with
        error := some ("Failed to detect objects: " ++ msg.getD "An unknown error occurred.")
        isLoading := false }

/-- The REST `detectObjects` (App.js lines 58-102) run to completion with
no interleaved event: the guard rejects when no image is selected,
otherwise the begin phase and the response continuation compose. The
boolean records whether a network request was issued. -/
def detectObjectsRest (s : AppState Detection) (o : FetchOutcome) : AppState Detection × Bool :=
  match s.imageFile with
  | none => ({ s with error := some "Please select an image first." }, false)
  | some _ => (applyOutcomeRest (detectBegin s) o, true)

/-- A bounding box as the hosted service may ship it: a 4-element array or
an `{x1,y1,x2,y2}` object. -/
inductive WireBox where
  | arr : ℚ → ℚ → ℚ → ℚ → WireBox
  | obj : ℚ → ℚ → ℚ → ℚ → WireBox
deriving DecidableEq

/-- A detection record as it arrives from the hosted service. -/
structure WireDetection where
  name : String
  confidence : ℚ
  wireBox : WireBox
deriving DecidableEq

/-- Whether a wire record already has the canonical shape: its box given
as the `{x1,y1,x2,y2}` fields the renderer reads. -/
def WireDetection.isCanonical (d : WireDetection) : Bool :=
  match d.wireBox with
  | .obj _ _ _ _ => true
  | .arr _ _ _ _ => false

/-- The observable outcomes of `client.predict` (part_000 lines 87-89):
a result whose `data` field is a list of payloads, or a thrown error whose
message may be absent. -/
inductive ClientOutcome where
  | ok : List (List WireDetection) → ClientOutcome
  | err : Option String → ClientOutcome
deriving DecidableEq

/-- `true` on every outcome the client variant's `catch` handles. -/
def ClientOutcome.isFailure : ClientOutcome → Bool
  | .ok _ => false
  | .err _ => true

/-- The hosted-client `detectObjects` (part_000 lines 76-96) run to
completion with no interleaved event: the guard rejects when no image is
selected or the client is not connected; otherwise on success
`result.data[0] || []` is stored unchanged, on failure the single error
message is set, and the `finally` step clears loading. The boolean records
whether a request was issued. -/
def detectObjectsClient (s : AppState WireDetection) (client : Option Unit)
    (o : ClientOutcome) : AppState WireDetection × Bool :=
  if s.imageFile = none ∨ client = none then
    ({ s with error := some (if client = none then "Client not ready. Please wait."
                             else "Please select an image first.") }, false)
  else
    let s1 := detectBegin s
    match o with
    | .ok data => ({ s1 with detections := data.headD [], isLoading := false }, true)
    | .err m =>
        ({ s1 with
           error := some ("Failed to detect objects: " ++ m.getD "An unknown error occurred.")
           isLoading := false }, true)

/-- Trace witnessing the stale-response race: select image 1, press
detect (request goes in flight for image 1), select image 2, then the
response for image 1 arrives and its continuation runs on the current
state. -/
def staleResponseTrace : AppState Detection :=
  let w1 := selectFileEvent w0 1
  let w2 := { w1 with app := detectBegin w1.app }
  let w3 := selectFileEvent w2 2
  applyOutcomeRest w3.app (.ok [⟨"pothole", 9 / 10, (10, 20, 30, 40)⟩])

/-- Claim C1: for natural size (W,H) with W,H > 0 and displayed size
(w,h), the overlay renderer uses scaleX = w/W and scaleY = h/H and places
each detection at left = x1·scaleX, top = y1·scaleY, width =
(x2−x1)·scaleX, height = (y2−y1)·scaleY. -/
theorem scale_maps_box_to_screen_rect (W H w h : ℚ) (hW : 0 < W) (hH : 0 < H)
    (dets : List Detection) :
    renderOverlays (getScaleFactors (some ⟨W, H⟩) (some ⟨w, h⟩)) dets =
      dets.map (fun d =>
        { left := d.box.x1 * (w / W)
          top := d.box.y1 * (h / H)
          width := (d.box.x2 - d.box.x1) * (w / W)
          height := (d.box.y2 - d.box.y1) * (h / H) }) :=
  rfl

/-- Witness for C1 at natural size 4×2, displayed size 2×1, one
detection. -/
theorem scale_maps_box_to_screen_rect_witness :
    (0 : ℚ) < 4 ∧ (0 : ℚ) < 2 ∧
    renderOverlays (getScaleFactors (some ⟨4, 2⟩) (some ⟨2, 1⟩))
        [⟨"pothole", 9 / 10, ⟨1, 1, 3, 2⟩⟩] =
      [(⟨"pothole", 9 / 10, ⟨1, 1, 3, 2⟩⟩ : Detection)].map (fun d =>
        { left := d.box.x1 * (2 / 4)
          top := d.box.y1 * (1 / 2)
          width := (d.box.x2 - d.box.x1) * (2 / 4)
          height := (d.box.y2 - d.box.y1) * (1 / 2) }) :=
  ⟨by norm_num, by norm_num,
    scale_maps_box_to_screen_rect 4 2 2 1 (by norm_num) (by norm_num) _⟩

/-- Claim C2 is violated by the code: after selecting image 2 while the
request for image 1 is in flight, the arrival of image 1's response leaves
image 1's detections stored as the detections shown over image 2 — the
continuation applies the stale payload unconditionally. -/
theorem stale_response_overwrites_new_image :
    staleResponseTrace.imageFile = some 2 ∧
    staleResponseTrace.detections = [⟨"pothole", 9 / 10, ⟨10, 20, 30, 40⟩⟩] :=
  ⟨rfl, rfl⟩

/-- Claim C3: a file-selection event carrying a file leaves detections
empty, error null and both dimension records cleared; `handleFileSelect`
itself issues no request, so the reset precedes any later detect call. -/
theorem select_clears_detections_error_dims (w : World) (f : ℕ) (rest : List ℕ) :
    (handleFileSelect w (f :: rest)).app.detections = [] ∧
    (handleFileSelect w (f :: rest)).app.error = none ∧
    (handleFileSelect w (f :: rest)).app.originalImageDimensions = none ∧
    (handleFileSelect w (f :: rest)).app.displayedImageDimensions = none :=
  ⟨rfl, rfl, rfl, rfl⟩

/-- Counterexample to claim C4: the hosted-client variant stores the
service's records unchanged, so a record whose box arrives as a 4-element
array is stored still in array form, not in the canonical
`{x1,y1,x2,y2}` field shape. -/
theorem client_variant_stores_unconverted_box :
    (detectObjectsClient { initApp with imageFile := some 1 } (some ())
        (.ok [[⟨"pothole", 9 / 10, .arr 10 20 30 40⟩]])).1.detections =
      [⟨"pothole", 9 / 10, WireBox.arr 10 20 30 40⟩] ∧
    WireDetection.isCanonical ⟨"pothole", 9 / 10, WireBox.arr 10 20 30 40⟩ = false :=
  ⟨rfl, rfl⟩

/-- Claim C4 amended: only the REST variant normalizes — it converts each
record's 4-element bbox array into the canonical
{name, confidence, box:{x1,y1,x2,y2}} shape before storing; the
hosted-client variant stores the first entry of the response data
unchanged, with no shape conversion. -/
theorem normalization_amended (s : AppState Detection) (raws : List RestRaw)
    (hs : s.imageFile ≠ none)
    (t : AppState WireDetection) (c : Option Unit) (data : List (List WireDetection))
    (ht : t.imageFile ≠ none) (hc : c ≠ none) :
    (detectObjectsRest s (.ok raws)).1.detections =
      raws.map (fun r =>
        { name := r.class_name
          confidence := r.confidence
          box := { x1 := r.bbox.1, y1 := r.bbox.2.1, x2 := r.bbox.2.2.1, y2 := r.bbox.2.2.2 } }) ∧
    (detectObjectsClient t c (.ok data)).1.detections = data.headD [] := by
  obtain ⟨i, hi⟩ := Option.ne_none_iff_exists'.mp hs
  have hguard : ¬(t.imageFile = none ∨ c = none) := not_or.mpr ⟨ht, hc⟩
  constructor
  · simp [detectObjectsRest, hi, applyOutcomeRest, detectBegin, formatDetection]
  · simp [detectObjectsClient, hguard, detectBegin]

/-- Witness for the amended C4 at concrete states and payloads. -/
theorem normalization_amended_witness :
    ({ initApp with imageFile := some 1 } : AppState Detection).imageFile ≠ none ∧
    ({ initApp with imageFile := some 1 } : AppState WireDetection).imageFile ≠ none ∧
    (some () : Option Unit) ≠ none ∧
    ((detectObjectsRest { initApp with imageFile := some 1 }
        (.ok [⟨"pothole", 9 / 10, (10, 20, 30, 40)⟩])).1.detections =
      [(⟨"pothole", 9 / 10, (10, 20, 30, 40)⟩ : RestRaw)].map (fun r =>
        { name := r.class_name
          confidence := r.confidence
          box := { x1 := r.bbox.1, y1 := r.bbox.2.1, x2 := r.bbox.2.2.1, y2 := r.bbox.2.2.2 } }) ∧
    (detectObjectsClient { initApp with imageFile := some 1 } (some ())
        (.ok [[⟨"car", 1 / 2, WireBox.obj 1 2 3 4⟩]])).1.detections =
      [[(⟨"car", 1 / 2, WireBox.obj 1 2 3 4⟩ : WireDetection)]].headD []) :=
  ⟨by simp, by simp, by simp,
    normalization_amended { initApp with imageFile := some 1 }
      [⟨"pothole", 9 / 10, (10, 20, 30, 40)⟩] (by simp)
      { initApp with imageFile := some 1 } (some ())
      [[⟨"car", 1 / 2, WireBox.obj 1 2 3 4⟩]] (by simp) (by simp)⟩

/-- Claim C5: whenever a request is actually issued (an image is selected
and, in the client variant, the client is connected), the final state has
the loading flag false for every outcome, and every failing outcome is
surfaced as a single error message. -/
theorem loading_cleared_and_failure_surfaced (s : AppState Detection) (o : FetchOutcome)
    (hs : s.imageFile ≠ none)
    (t : AppState WireDetection) (c : Option Unit) (oc : ClientOutcome)
    (ht : t.imageFile ≠ none) (hc : c ≠ none) :
    (detectObjectsRest s o).1.isLoading = false ∧
    (FetchOutcome.isFailure o = true → ∃ m, (detectObjectsRest s o).1.error = some m) ∧
    (detectObjectsClient t c oc).1.isLoading = false ∧
    (ClientOutcome.isFailure oc = true → ∃ m, (detectObjectsClient t c oc).1.error = some m) := by
  obtain ⟨i, hi⟩ := Option.ne_none_iff_exists'.mp hs
  have hguard : ¬(t.imageFile = none ∨ c = none) := not_or.mpr ⟨ht, hc⟩
  refine ⟨?_, ?_, ?_, ?_⟩ <;> cases o <;> cases oc <;>
    simp [detectObjectsRest, detectObjectsClient, applyOutcomeRest, detectBegin, hi, hguard,
      FetchOutcome.isFailure, ClientOutcome.isFailure]

/-- Witness for C5 at a concrete issued request with a transport failure
in both variants. -/
theorem loading_cleared_and_failure_surfaced_witness :
    ({ initApp with imageFile := some 1 } : AppState Detection).imageFile ≠ none ∧
    ({ initApp with imageFile := some 1 } : AppState WireDetection).imageFile ≠ none ∧
    (some () : Option Unit) ≠ none ∧
    ((detectObjectsRest { initApp with imageFile := some 1 }
        (.networkError (some "Failed to fetch"))).1.isLoading = false ∧
    (FetchOutcome.isFailure (.networkError (some "Failed to fetch")) = true →
      ∃ m, (detectObjectsRest { initApp with imageFile := some 1 }
        (.networkError (some "Failed to fetch"))).1.error = some m) ∧
    (detectObjectsClient { initApp with imageFile := some 1 } (some ())
        (.err none)).1.isLoading = false ∧
    (ClientOutcome.isFailure (.err none) = true →
      ∃ m, (detectObjectsClient { initApp with imageFile := some 1 } (some ())
        (.err none)).1.error = some m)) :=
  ⟨by simp, by simp, by simp,
    loading_cleared_and_failure_surfaced { initApp with imageFile := some 1 }
      (.networkError (some "Failed to fetch")) (by simp)
      { initApp with imageFile := some 1 } (some ()) (.err none) (by simp) (by simp)⟩

/-- Claim C6: with no image selected, invoking detect sets a non-null
error, issues no request, and leaves the loading flag untouched, in both
variants. -/
theorem detect_without_image_rejects (s : AppState Detection) (o : FetchOutcome)
    (hs : s.imageFile = none)
    (t : AppState WireDetection) (c : Option Unit) (oc : ClientOutcome)
    (ht : t.imageFile = none) :
    (detectObjectsRest s o).1.error ≠ none ∧
    (detectObjectsRest s o).2 = false ∧
    (detectObjectsRest s o).1.isLoading = s.isLoading ∧
    (detectObjectsClient t c oc).1.error ≠ none ∧
    (detectObjectsClient t c oc).2 = false ∧
    (detectObjectsClient t c oc).1.isLoading = t.isLoading := by
  have hguard : t.imageFile = none ∨ c = none := Or.inl ht
  refine ⟨?_, ?_, ?_, ?_, ?_, ?_⟩ <;>
    simp [detectObjectsRest, detectObjectsClient, hs, hguard]

/-- Witness for C6 at the initial state of each variant. -/
theorem detect_without_image_rejects_witness :
    (initApp : AppState Detection).imageFile = none ∧
    (initApp : AppState WireDetection).imageFile = none ∧
    ((detectObjectsRest initApp (.ok [])).1.error ≠ none ∧
    (detectObjectsRest initApp (.ok [])).2 = false ∧
    (detectObjectsRest initApp (.ok [])).1.isLoading = (initApp : AppState Detection).isLoading ∧
    (detectObjectsClient initApp none (.ok [])).1.error ≠ none ∧
    (detectObjectsClient initApp none (.ok [])).2 = false ∧
    (detectObjectsClient initApp none (.ok [])).1.isLoading =
      (initApp : AppState WireDetection).isLoading) :=
  ⟨rfl, rfl, detect_without_image_rejects initApp (.ok []) rfl initApp none (.ok []) rfl⟩

/-- Claim C7: with an empty stored detection list the renderer yields no
overlay rectangles (for any scale-factor availability) and the JSON panel
is not shown. -/
theorem empty_detections_render_nothing (sf : Option ScaleFactors) :
    renderOverlays sf [] = [] ∧ showJsonPanel [] = false := by
  cases sf <;> simp [renderOverlays, showJsonPanel]

/-- Claim C8: the rendered label is the class name followed by the
confidence times 100 rounded to one decimal place and a percent sign
(the code's `toFixed(1)` agrees with rounding at tenths precision), and
a confidence of 0.8567 displays as "85.7%". -/
theorem label_shows_confidence_percent_one_decimal :
    (∀ name c, labelText name c = specLabelText name c) ∧
    labelText "pothole" (8567 / 10000) = "pothole (85.7%)" := by
  constructor
  · intro name c
    simp only [labelText, specLabelText, toFixed1, round_eq]
  · have h : ⌊(8567 : ℚ) / 10000 * 100 * 10 + 1 / 2⌋ = 857 := by norm_num
    simp only [labelText, toFixed1]
    rw [h]
    decide

/-- Trace witnessing the double release: select image 1, select image 2,
unmount. `handleFileSelect` revokes image 1's blob URL, and the
`[imagePreview]`-keyed effect cleanup of the re-render revokes it a second
time. -/
def doubleRevokeTrace : World :=
  unmountEvent (selectFileEvent (selectFileEvent w0 1) 2)

/-- Claim C9 is violated by the code: the first preview's blob URL is
created once but revoked twice — once by `handleFileSelect` when it is
replaced and once by the effect cleanup that captured it. -/
theorem preview_revoked_twice :
    doubleRevokeTrace.created.count "blob:0" = 1 ∧
    doubleRevokeTrace.revoked.count "blob:0" = 2 :=
  ⟨rfl, rfl⟩

/-- Claim C10: a file-selection event whose file list yields no file
leaves the whole state unchanged — every field, including the preview and
the creation/revocation logs, keeps its prior value. -/
theorem empty_selection_changes_nothing (w : World) :
    handleFileSelect w [] = w :=
  rfl

end PotholeYolo
